import Mathlib

/-!
Verification of the abalone-age-predictor notebook
(`sagemaker-python-sdk/tensorflow_abalone_age_predictor_using_layers`).

The notebook contains one piece of program logic, the TensorFlow model
function `model_fn`, plus a linear sequence of calls against the SageMaker
SDK (upload, fit, deploy, predict, delete_endpoint).  We embed:

* the model function as a Lean function that builds a deep-embedded
  TensorFlow graph (graph construction is exactly what the Python code
  does when it runs), with Python `dict` lookups and `None` labels
  modelled by `Except`/`Option`;
* an executable evaluator for that graph over `ℚ` (dense layers, ReLU,
  reshape), parameterised by the layer weights TensorFlow would create;
* the notebook's top-level cells as a trace of external calls, in
  execution order, parameterised by the contents of the prediction CSV
  (the `data/` directory is not part of the sources).
-/

namespace Abalone

/-- `tf.estimator.ModeKeys`: the three modes a model function is invoked in. -/
inductive Mode
  | TRAIN
  | EVAL
  | PREDICT
  deriving DecidableEq, Repr

/-- Activation argument of `tf.layers.dense`: `tf.nn.relu` or `None` (linear). -/
inductive Activation
  | relu
  | linear
  deriving DecidableEq, Repr

/-- Tensor element dtypes that appear in the notebook. -/
inductive DType
  | float32
  | float64
  | int64
  deriving DecidableEq, Repr

/-- Deep embedding of the TensorFlow graph nodes that `model_fn` constructs.
`placeholder` is a tensor handed to the model function through the
`features` dict; `labelsIn` is the labels tensor handed to it by the
estimator; the remaining constructors record the framework calls
`tf.layers.dense`, `tf.reshape`, `tf.losses.mean_squared_error` and
`tf.cast` with their arguments. -/
inductive Graph
  | placeholder (name : String)
  | labelsIn
  | dense (input : Graph) (units : Nat) (activation : Activation)
  | reshape (input : Graph) (shape : List Int)
  | meanSquaredError (labels : Graph) (predictions : Graph)
  | cast (input : Graph) (dtype : DType)
  deriving DecidableEq, Repr

/-- Evaluation-metric ops (`tf.metrics`): `model_fn` uses only
`tf.metrics.root_mean_squared_error`. -/
inductive Metric
  | rootMeanSquaredError (labels : Graph) (predictions : Graph)
  deriving DecidableEq, Repr

/-- `tf.train` optimizers used by the notebook. -/
inductive Optimizer
  | gradientDescent (learningRate : ℚ)
  deriving DecidableEq, Repr

/-- The training op produced by `optimizer.minimize(loss=..., global_step=tf.train.get_global_step())`:
one optimization step of `optimizer` on `loss`. -/
structure TrainOp where
  optimizer : Optimizer
  loss : Graph
  deriving DecidableEq, Repr

/-- `tf.estimator.EstimatorSpec`: keyword arguments not passed default to `None`. -/
structure EstimatorSpec where
  mode : Mode
  predictions : Option (List (String × Graph)) := none
  loss : Option Graph := none
  train_op : Option TrainOp := none
  eval_metric_ops : Option (List (String × Metric)) := none
  deriving DecidableEq, Repr

/-- Python exceptions that the framework calls inside `model_fn` can raise:
`KeyError` from a `dict` lookup, `ValueError` from a framework call on bad
arguments (e.g. `tf.losses.mean_squared_error` with `labels=None`). -/
inductive TFError
  | keyError (key : String)
  | valueError (msg : String)
  deriving DecidableEq, Repr

/-- Python `d[k]` on a dict: the value, or a `KeyError`. -/
def dictGet {α : Type} (d : List (String × α)) (k : String) : Except TFError α :=
  match d.lookup k with
  | some v => Except.ok v
  | none => Except.error (TFError.keyError k)

/-- The complete abalone `model_fn` from the notebook:

```python
def model_fn(features, labels, mode, params):
  first_hidden_layer = tf.layers.dense(features["x"], 10, activation=tf.nn.relu)
  second_hidden_layer = tf.layers.dense(first_hidden_layer, 10, activation=tf.nn.relu)
  output_layer = tf.layers.dense(second_hidden_layer, 1)
  predictions = tf.reshape(output_layer, [-1])
  if mode == tf.estimator.ModeKeys.PREDICT:
    return tf.estimator.EstimatorSpec(mode=mode, predictions={"ages": predictions})
  loss = tf.losses.mean_squared_error(labels, predictions)
  eval_metric_ops = {"rmse": tf.metrics.root_mean_squared_error(
      tf.cast(labels, tf.float64), predictions)}
  optimizer = tf.train.GradientDescentOptimizer(learning_rate=params["learning_rate"])
  train_op = optimizer.minimize(loss=loss, global_step=tf.train.get_global_step())
  return tf.estimator.EstimatorSpec(mode=mode, loss=loss, train_op=train_op,
                                    eval_metric_ops=eval_metric_ops)
```

`labels` is `None` (here `none`) for `predict()` calls;
`tf.losses.mean_squared_error` raises a `ValueError` when `labels` is `None`. -/
def model_fn (features : List (String × Graph)) (labels : Option Graph)
    (mode : Mode) (params : List (String × ℚ)) : Except TFError EstimatorSpec :=
  match dictGet features "x" with
  | Except.error e => Except.error e
  | Except.ok x =>
    let first_hidden_layer := Graph.dense x 10 Activation.relu
    let second_hidden_layer := Graph.dense first_hidden_layer 10 Activation.relu
    let output_layer := Graph.dense second_hidden_layer 1 Activation.linear
    let predictions := Graph.reshape output_layer [-1]
    if mode = Mode.PREDICT then
      Except.ok { mode := mode, predictions := some [("ages", predictions)] }
    else
      match labels with
      | none => Except.error (TFError.valueError "labels must not be None")
      | some labelsT =>
        let loss := Graph.meanSquaredError labelsT predictions
        let eval_metric_ops :=
          [("rmse", Metric.rootMeanSquaredError (Graph.cast labelsT DType.float64) predictions)]
        match dictGet params "learning_rate" with
        | Except.error e => Except.error e
        | Except.ok lr =>
          let optimizer := Optimizer.gradientDescent lr
          let train_op : TrainOp := { optimizer := optimizer, loss := loss }
          Except.ok { mode := mode, loss := some loss, train_op := some train_op,
                      eval_metric_ops := some eval_metric_ops }

/-! ### Graph evaluation

TensorFlow materialises a value for each graph node when a session runs it.
We model runtime tensor values over `ℚ` (exact rationals in place of
floating point; the claims settled semantically concern only shapes and the
dense-layer/ReLU/reshape pipeline, which is rational-valued).  Each call to
`tf.layers.dense` creates its own kernel and bias variables; we supply them
through an environment indexed by the layer's position in the chain (the
number of `dense` nodes strictly below it), which is exactly how TensorFlow
disambiguates the auto-named variable scopes `dense`, `dense_1`, `dense_2`
of the three calls in `model_fn`. -/

/-- Runtime tensor values: rank-2, rank-1 and rank-0 tensors. -/
inductive TValue
  | mat (m : List (List ℚ))
  | vec (v : List ℚ)
  | scalar (q : ℚ)
  deriving DecidableEq, Repr

/-- The variables of one `tf.layers.dense` call: one weight column and one
bias entry per output unit. -/
structure DenseWeights where
  cols : List (List ℚ)
  bias : List ℚ
  deriving DecidableEq, Repr

/-- Runtime environment: the feature tensors fed through the `features`
dict, the labels tensor, and the dense-layer variables. -/
structure Env where
  features : String → Option (List (List ℚ))
  labels : Option (List ℚ)
  weights : Nat → DenseWeights

/-- `tf.nn.relu` on one element. -/
def reluQ (q : ℚ) : ℚ := max q 0

/-- Semantics of the `activation` argument of `tf.layers.dense`. -/
def Activation.apply : Activation → ℚ → ℚ
  | Activation.relu => reluQ
  | Activation.linear => id

/-- Dot product (sum of elementwise products, truncated to the shorter list). -/
def dotQ (xs ys : List ℚ) : ℚ := (List.zipWith (· * ·) xs ys).sum

/-- One input row through a dense layer: per unit, activation of
(input · column + bias). -/
def denseRow (w : DenseWeights) (act : ℚ → ℚ) (row : List ℚ) : List ℚ :=
  List.zipWith (fun col b => act (dotQ row col + b)) w.cols w.bias

/-- A dense layer applied to a batch: rowwise. -/
def applyDense (w : DenseWeights) (act : ℚ → ℚ) (m : List (List ℚ)) : List (List ℚ) :=
  m.map (denseRow w act)

/-- Number of `dense` nodes in a graph: used to index the per-layer
variables created by successive `tf.layers.dense` calls. -/
def denseCount : Graph → Nat
  | Graph.placeholder _ => 0
  | Graph.labelsIn => 0
  | Graph.dense g _ _ => denseCount g + 1
  | Graph.reshape g _ => denseCount g
  | Graph.meanSquaredError l p => denseCount l + denseCount p
  | Graph.cast g _ => denseCount g

/-- Evaluate a graph node in an environment.  `reshape g [-1]` flattens to a
rank-1 tensor; `mean_squared_error` is the mean of squared differences and
raises on `labels`/`predictions` shape mismatch; `cast` changes only the
dtype, so on exact rationals it preserves the value. -/
def evalGraph (env : Env) : Graph → Except TFError TValue
  | Graph.placeholder n =>
    match env.features n with
    | some m => Except.ok (TValue.mat m)
    | none => Except.error (TFError.keyError n)
  | Graph.labelsIn =>
    match env.labels with
    | some v => Except.ok (TValue.vec v)
    | none => Except.error (TFError.valueError "labels must not be None")
  | Graph.dense g _ a =>
    match evalGraph env g with
    | Except.error e => Except.error e
    | Except.ok (TValue.mat m) =>
      Except.ok (TValue.mat (applyDense (env.weights (denseCount g)) a.apply m))
    | Except.ok _ => Except.error (TFError.valueError "dense expects a rank-2 input")
  | Graph.reshape g s =>
    if s = [-1] then
      match evalGraph env g with
      | Except.error e => Except.error e
      | Except.ok (TValue.mat m) => Except.ok (TValue.vec m.flatten)
      | Except.ok (TValue.vec v) => Except.ok (TValue.vec v)
      | Except.ok (TValue.scalar q) => Except.ok (TValue.vec [q])
    else Except.error (TFError.valueError "unsupported reshape")
  | Graph.meanSquaredError l p =>
    match evalGraph env l, evalGraph env p with
    | Except.error e, _ => Except.error e
    | Except.ok _, Except.error e => Except.error e
    | Except.ok (TValue.vec lv), Except.ok (TValue.vec pv) =>
      if lv.length = pv.length ∧ lv.length ≠ 0 then
        Except.ok (TValue.scalar
          ((List.zipWith (fun a b => (a - b) * (a - b)) lv pv).sum / lv.length))
      else Except.error (TFError.valueError "labels and predictions shapes differ")
    | Except.ok _, Except.ok _ =>
      Except.error (TFError.valueError "mean_squared_error expects rank-1 tensors")
  | Graph.cast g _ => evalGraph env g

/-! ### The notebook's top-level cells

The notebook executes a fixed sequence of calls against the SageMaker SDK
and TensorFlow utilities.  We record that sequence as a trace of call
events, parameterised by the rows of `data/abalone_predict.csv` (the
`data/` directory is referenced by the notebook but not part of the
sources). -/

/-- The keyword arguments of the `sagemaker.tensorflow.TensorFlow(...)`
estimator constructor in the notebook.  `role` is the opaque credential
returned by `get_execution_role()`. -/
structure TensorFlowEstimatorArgs where
  entry_point : String
  role : Unit
  framework_version : String
  training_steps : Nat
  evaluation_steps : Nat
  hyperparameters : List (String × ℚ)
  train_instance_count : Nat
  train_instance_type : String
  deriving DecidableEq, Repr

/-- The exact arguments the notebook passes to `TensorFlow(...)`. -/
def abalone_estimator_args : TensorFlowEstimatorArgs :=
  { entry_point := "abalone.py"
    role := ()
    framework_version := "1.9"
    training_steps := 100
    evaluation_steps := 100
    hyperparameters := [("learning_rate", 1/1000)]
    train_instance_count := 1
    train_instance_type := "ml.c4.xlarge" }

/-- Result of `tf.make_tensor_proto(values=..., shape=..., dtype=...)`. -/
structure TensorProto where
  values : List ℚ
  shape : List Nat
  dtype : DType
  deriving DecidableEq, Repr

/-- `tf.contrib.learn.datasets.base.load_csv_without_header` result:
`data` holds every column but the last of each row (as `features_dtype`),
`target` the last column (as `target_dtype`). -/
structure Dataset where
  data : List (List ℚ)
  target : List ℚ
  deriving DecidableEq, Repr

/-- `load_csv_without_header` on the parsed rows of a CSV file: each row
splits into the feature columns and the trailing target column. -/
def load_csv_without_header (rows : List (List ℚ)) : Dataset :=
  { data := rows.map List.dropLast
    target := rows.map (fun r => r.getLastD 0) }

/-- `prediction_set.data[0]`: the first feature row of the prediction
dataset (`rows` are the rows of `data/abalone_predict.csv`). -/
def predict_data (rows : List (List ℚ)) : List ℚ :=
  (load_csv_without_header rows).data.headD []

/-- `tensor_proto = tf.make_tensor_proto(values=np.asarray(data), shape=[1, len(data)], dtype=tf.float32)`. -/
def tensor_proto (rows : List (List ℚ)) : TensorProto :=
  { values := predict_data rows
    shape := [1, (predict_data rows).length]
    dtype := DType.float32 }

/-- One external call made by a notebook cell. -/
inductive NotebookCall
  | session
  | getExecutionRole
  | uploadData (path : String) (keyPrefix : String)
  | estimatorConstruct (args : TensorFlowEstimatorArgs)
  | fit
  | deploy (initialInstanceCount : Nat) (instanceType : String)
  | loadCsv (filename : String)
  | makeTensorProto (t : TensorProto)
  | predict (request : TensorProto)
  | deleteEndpoint
  deriving DecidableEq, Repr

/-- The notebook's external calls, in the order its cells execute them:
`sagemaker.Session()` / `get_execution_role()` (cell 3),
`sagemaker_session.upload_data(path='data', key_prefix='data/DEMO-abalone')`
(cell 5), `TensorFlow(...)` and `abalone_estimator.fit(inputs)` (cell 17),
`abalone_estimator.deploy(initial_instance_count=1, instance_type='ml.m4.xlarge')`
(cell 20), `load_csv_without_header` and `tf.make_tensor_proto` (cell 23),
`abalone_predictor.predict(tensor_proto)` (cell 24), and
`sagemaker.Session().delete_endpoint(...)` (cell 26). -/
def notebookTrace (rows : List (List ℚ)) : List NotebookCall :=
  [ NotebookCall.session
  , NotebookCall.getExecutionRole
  , NotebookCall.uploadData "data" "data/DEMO-abalone"
  , NotebookCall.estimatorConstruct abalone_estimator_args
  , NotebookCall.fit
  , NotebookCall.deploy 1 "ml.m4.xlarge"
  , NotebookCall.loadCsv "data/abalone_predict.csv"
  , NotebookCall.makeTensorProto (tensor_proto rows)
  , NotebookCall.predict (tensor_proto rows)
  , NotebookCall.session
  , NotebookCall.deleteEndpoint ]

/-- Modelled from the spec: `data/abalone_predict.csv` is not among the
sources; per the spec each of its rows holds the seven numeric abalone
measurements (length, diameter, height, whole weight, shucked weight,
viscera weight, shell weight) followed by the integer ring count as the
trailing target column. -/
def abalone_predict_rows : List (List ℚ) :=
  [ [53/100, 42/100, 135/1000, 677/1000, 2565/10000, 1415/10000, 21/100, 9]
  , [585/1000, 46/100, 185/1000, 9955/10000, 3945/10000, 272/1000, 285/1000, 10] ]

/-- Evaluate each entry of a predictions dict to a rank-1 tensor value. -/
def evalPreds (env : Env) : List (String × Graph) → Except TFError (List (String × List ℚ))
  | [] => Except.ok []
  | (k, g) :: rest =>
    match evalGraph env g with
    | Except.error e => Except.error e
    | Except.ok (TValue.vec v) =>
      match evalPreds env rest with
      | Except.error e => Except.error e
      | Except.ok tail => Except.ok ((k, v) :: tail)
    | Except.ok _ => Except.error (TFError.valueError "served prediction is not rank-1")

/-- Modelled from the spec: the deployed inference endpoint ("accepting a
tensor-encoded request and returning a prediction response") serves the
model that `abalone.py`'s `model_fn` builds: it invokes `model_fn` in
`PREDICT` mode on the request tensor (a `[1, n]` batch, fed as the
features-dict entry `"x"`) and evaluates the returned predictions on the
trained layer weights `w`. -/
def endpointPredict (w : Nat → DenseWeights) (req : TensorProto) :
    Except TFError (List (String × List ℚ)) :=
  match model_fn [("x", Graph.placeholder "x")] none Mode.PREDICT [] with
  | Except.error e => Except.error e
  | Except.ok spec =>
    match spec.predictions with
    | none => Except.error (TFError.valueError "no predictions to serve")
    | some preds =>
      evalPreds
        { features := fun n => if n = "x" then some [req.values] else none
          labels := none
          weights := w } preds

/-- The layer chain that `model_fn` wires up, starting from the input
tensor `x` (= `features["x"]`): dense 10 ReLU, dense 10 ReLU, dense 1
linear. -/
def abaloneNetwork (x : Graph) : Graph :=
  Graph.dense (Graph.dense (Graph.dense x 10 Activation.relu) 10 Activation.relu)
    1 Activation.linear

/-- Is a notebook call an endpoint invocation (`abalone_predictor.predict`)? -/
def isPredictCall : NotebookCall → Bool
  | NotebookCall.predict _ => true
  | _ => false

/-- Is a notebook call one of the five pipeline steps the ordering claim is
about: data upload, fit, deploy, endpoint invocation, endpoint deletion? -/
def isPipelineCall : NotebookCall → Bool
  | NotebookCall.uploadData _ _ => true
  | NotebookCall.fit => true
  | NotebookCall.deploy _ _ => true
  | NotebookCall.predict _ => true
  | NotebookCall.deleteEndpoint => true
  | _ => false

/-- Is a notebook call the estimator construction (`TensorFlow(...)`)? -/
def isEstimatorConstructCall : NotebookCall → Bool
  | NotebookCall.estimatorConstruct _ => true
  | _ => false

/-! ### Helper lemmas -/

theorem applyDense_length (w : DenseWeights) (act : ℚ → ℚ) (m : List (List ℚ)) :
    (applyDense w act m).length = m.length := by
  simp [applyDense]

theorem denseRow_length (w : DenseWeights) (act : ℚ → ℚ) (row : List ℚ) :
    (denseRow w act row).length = min w.cols.length w.bias.length := by
  simp [denseRow]

theorem applyDense_flatten_length (w : DenseWeights) (act : ℚ → ℚ) (m : List (List ℚ))
    (h : min w.cols.length w.bias.length = 1) :
    (applyDense w act m).flatten.length = m.length := by
  induction m with
  | nil => simp [applyDense]
  | cons r rs ih =>
    simp only [applyDense, List.map_cons, List.flatten_cons, List.length_append,
      List.length_cons] at ih ⊢
    rw [denseRow_length, h, ih]
    omega

theorem evalGraph_abaloneNetwork (env : Env) (x : Graph) (m : List (List ℚ))
    (hx : evalGraph env x = Except.ok (TValue.mat m)) :
    evalGraph env (Graph.reshape (abaloneNetwork x) [-1]) =
      Except.ok (TValue.vec
        (applyDense (env.weights (denseCount x + 2)) Activation.linear.apply
          (applyDense (env.weights (denseCount x + 1)) Activation.relu.apply
            (applyDense (env.weights (denseCount x)) Activation.relu.apply m))).flatten) := by
  simp [abaloneNetwork, evalGraph, hx, denseCount]

/-! ### The claims -/

/-- C2: on any invocation whose features dict binds `"x"`, `model_fn` wires
up exactly the network `features["x"] → dense 10 ReLU → dense 10 ReLU →
dense 1 linear`; in `TRAIN` and `EVAL` modes the loss is the mean squared
error between the labels and the reshaped output, and the training op is one
gradient-descent minimize step on that loss at the learning rate taken from
the hyperparameter mapping. -/
theorem abalone_C2_network_loss_trainop
    (features : List (String × Graph)) (labels : Option Graph) (mode : Mode)
    (params : List (String × ℚ)) (x l : Graph) (lr : ℚ)
    (hx : features.lookup "x" = some x) :
    (mode = Mode.PREDICT →
      model_fn features labels mode params =
        Except.ok
          { mode := mode,
            predictions := some [("ages", Graph.reshape (abaloneNetwork x) [-1])] }) ∧
    ((mode = Mode.TRAIN ∨ mode = Mode.EVAL) → labels = some l →
      params.lookup "learning_rate" = some lr →
      model_fn features labels mode params =
        Except.ok
          { mode := mode,
            loss := some (Graph.meanSquaredError l (Graph.reshape (abaloneNetwork x) [-1])),
            train_op := some
              { optimizer := Optimizer.gradientDescent lr,
                loss := Graph.meanSquaredError l (Graph.reshape (abaloneNetwork x) [-1]) },
            eval_metric_ops := some
              [("rmse", Metric.rootMeanSquaredError (Graph.cast l DType.float64)
                  (Graph.reshape (abaloneNetwork x) [-1]))] }) := by
  constructor
  · intro hm
    subst hm
    simp [model_fn, dictGet, hx, abaloneNetwork]
  · intro hm hl hlr
    subst hl
    rcases hm with hm | hm <;> subst hm <;>
      simp [model_fn, dictGet, hx, hlr, abaloneNetwork]

/-- Witness for C2 at a concrete invocation. -/
theorem abalone_C2_witness :
    [("x", Graph.placeholder "x")].lookup "x" = some (Graph.placeholder "x") ∧
    model_fn [("x", Graph.placeholder "x")] (some Graph.labelsIn) Mode.TRAIN
        [("learning_rate", 1/1000)] =
      Except.ok
        { mode := Mode.TRAIN,
          loss := some (Graph.meanSquaredError Graph.labelsIn
            (Graph.reshape (abaloneNetwork (Graph.placeholder "x")) [-1])),
          train_op := some
            { optimizer := Optimizer.gradientDescent (1/1000),
              loss := Graph.meanSquaredError Graph.labelsIn
                (Graph.reshape (abaloneNetwork (Graph.placeholder "x")) [-1]) },
          eval_metric_ops := some
            [("rmse",
              Metric.rootMeanSquaredError (Graph.cast Graph.labelsIn DType.float64)
                (Graph.reshape (abaloneNetwork (Graph.placeholder "x")) [-1]))] } :=
  ⟨by rfl,
    (abalone_C2_network_loss_trainop [("x", Graph.placeholder "x")]
        (some Graph.labelsIn) Mode.TRAIN [("learning_rate", 1/1000)]
        (Graph.placeholder "x") Graph.labelsIn (1/1000) (by rfl)).2
      (Or.inl rfl) rfl (by rfl)⟩

/-- C1 as stated is false: in `PREDICT` mode, `model_fn` returns an
`EstimatorSpec` that bundles predictions only — its `loss`, `train_op` and
`eval_metric_ops` are all `None`. -/
theorem abalone_C1_counterexample :
    ¬ (∀ s : EstimatorSpec,
        model_fn [("x", Graph.placeholder "x")] none Mode.PREDICT [] = Except.ok s →
        s.predictions.isSome ∧ s.loss.isSome ∧ s.train_op.isSome ∧
          s.eval_metric_ops.isSome) := by
  intro h
  have hs := h
    { mode := Mode.PREDICT,
      predictions :=
        some [("ages", Graph.reshape (abaloneNetwork (Graph.placeholder "x")) [-1])] }
    (by simp [model_fn, dictGet, abaloneNetwork])
  simp at hs

/-- C1 amended: an `EstimatorSpec` returned by `model_fn` bundles
predictions (and nothing else) in `PREDICT` mode, and loss, training op and
evaluation metrics (but no predictions) in `TRAIN`/`EVAL` mode; no single
invocation bundles all four. -/
theorem abalone_C1_amended_fields (features : List (String × Graph))
    (labels : Option Graph) (mode : Mode) (params : List (String × ℚ))
    (s : EstimatorSpec)
    (h : model_fn features labels mode params = Except.ok s) :
    (mode = Mode.PREDICT →
      s.predictions.isSome ∧ s.loss = none ∧ s.train_op = none ∧
        s.eval_metric_ops = none) ∧
    (mode ≠ Mode.PREDICT →
      s.predictions = none ∧ s.loss.isSome ∧ s.train_op.isSome ∧
        s.eval_metric_ops.isSome) := by
  unfold model_fn at h
  split at h
  · exact absurd h (by simp)
  · split at h
    next hm =>
      cases h
      refine ⟨fun _ => ⟨rfl, rfl, rfl, rfl⟩, fun hn => absurd hm hn⟩
    next hm =>
      split at h
      · exact absurd h (by simp)
      · split at h
        · exact absurd h (by simp)
        · cases h
          exact ⟨fun hp => absurd hp hm, fun _ => ⟨rfl, rfl, rfl, rfl⟩⟩

/-- Witness for the amended C1 at a concrete `PREDICT` invocation. -/
theorem abalone_C1_amended_witness :
    model_fn [("x", Graph.placeholder "x")] none Mode.PREDICT [] =
      Except.ok
        { mode := Mode.PREDICT,
          predictions :=
            some [("ages",
              Graph.reshape (abaloneNetwork (Graph.placeholder "x")) [-1])] } ∧
    (({ mode := Mode.PREDICT,
        predictions :=
          some [("ages",
            Graph.reshape (abaloneNetwork (Graph.placeholder "x")) [-1])] } :
          EstimatorSpec).predictions.isSome ∧
      ({ mode := Mode.PREDICT,
         predictions :=
           some [("ages",
             Graph.reshape (abaloneNetwork (Graph.placeholder "x")) [-1])] } :
           EstimatorSpec).loss = none ∧
      ({ mode := Mode.PREDICT,
         predictions :=
           some [("ages",
             Graph.reshape (abaloneNetwork (Graph.placeholder "x")) [-1])] } :
           EstimatorSpec).train_op = none ∧
      ({ mode := Mode.PREDICT,
         predictions :=
           some [("ages",
             Graph.reshape (abaloneNetwork (Graph.placeholder "x")) [-1])] } :
           EstimatorSpec).eval_metric_ops = none) :=
  ⟨by simp [model_fn, dictGet, abaloneNetwork],
    (abalone_C1_amended_fields [("x", Graph.placeholder "x")] none Mode.PREDICT []
        _ (by simp [model_fn, dictGet, abaloneNetwork])).1 rfl⟩

/-- C8: in `PREDICT` mode `model_fn` returns before the loss computation,
never reads `labels`, and succeeds (with no loss in the result) even when
`labels` is absent, provided the features dict binds `"x"`. -/
theorem abalone_C8_predict_ignores_labels (features : List (String × Graph))
    (params : List (String × ℚ)) (labels1 labels2 : Option Graph) (x : Graph)
    (hx : features.lookup "x" = some x) :
    model_fn features labels1 Mode.PREDICT params =
      model_fn features labels2 Mode.PREDICT params ∧
    ∃ s, model_fn features none Mode.PREDICT params = Except.ok s ∧
      s.loss = none ∧ s.predictions.isSome := by
  refine ⟨rfl, ?_⟩
  refine ⟨{ mode := Mode.PREDICT,
            predictions := some [("ages", Graph.reshape (abaloneNetwork x) [-1])] },
    ?_, rfl, rfl⟩
  simp [model_fn, dictGet, hx, abaloneNetwork]

/-- Witness for C8 at a concrete invocation. -/
theorem abalone_C8_witness :
    [("x", Graph.placeholder "x")].lookup "x" = some (Graph.placeholder "x") ∧
    (model_fn [("x", Graph.placeholder "x")] (some Graph.labelsIn) Mode.PREDICT [] =
       model_fn [("x", Graph.placeholder "x")] none Mode.PREDICT [] ∧
     ∃ s, model_fn [("x", Graph.placeholder "x")] none Mode.PREDICT [] =
         Except.ok s ∧ s.loss = none ∧ s.predictions.isSome) :=
  ⟨rfl,
    abalone_C8_predict_ignores_labels [("x", Graph.placeholder "x")] []
      (some Graph.labelsIn) none (Graph.placeholder "x") rfl⟩

/-- C9: in `TRAIN` or `EVAL` mode `model_fn` requires
`params["learning_rate"]`: the call fails whenever the hyperparameter
mapping lacks that key (specifically with a `KeyError` once the loss
computation has gone through), and the notebook satisfies the precondition
by passing `hyperparameters={'learning_rate': 0.001}`. -/
theorem abalone_C9_learning_rate_required (features : List (String × Graph))
    (labels : Option Graph) (mode : Mode) (params : List (String × ℚ))
    (hmode : mode = Mode.TRAIN ∨ mode = Mode.EVAL)
    (hlr : params.lookup "learning_rate" = none) :
    (∃ e, model_fn features labels mode params = Except.error e) ∧
    (∀ x l, features.lookup "x" = some x → labels = some l →
      model_fn features labels mode params =
        Except.error (TFError.keyError "learning_rate")) ∧
    abalone_estimator_args.hyperparameters.lookup "learning_rate" = some (1/1000) := by
  have hmp : mode ≠ Mode.PREDICT := by
    rcases hmode with h | h <;> subst h <;> simp
  refine ⟨?_, ?_, by rfl⟩
  · cases hx : features.lookup "x" with
    | none =>
      exact ⟨TFError.keyError "x", by simp [model_fn, dictGet, hx]⟩
    | some x =>
      cases labels with
      | none =>
        exact ⟨TFError.valueError "labels must not be None",
          by simp [model_fn, dictGet, hx, hmp]⟩
      | some l =>
        exact ⟨TFError.keyError "learning_rate",
          by simp [model_fn, dictGet, hx, hmp, hlr]⟩
  · intro x l hx hl
    subst hl
    simp [model_fn, dictGet, hx, hmp, hlr]

/-- Witness for C9 at a concrete invocation with an empty hyperparameter
mapping. -/
theorem abalone_C9_witness :
    (Mode.TRAIN = Mode.TRAIN ∨ Mode.TRAIN = Mode.EVAL) ∧
    ([] : List (String × ℚ)).lookup "learning_rate" = none ∧
    ((∃ e, model_fn [("x", Graph.placeholder "x")] (some Graph.labelsIn)
        Mode.TRAIN [] = Except.error e) ∧
     (∀ x l, [("x", Graph.placeholder "x")].lookup "x" = some x →
        (some Graph.labelsIn : Option Graph) = some l →
        model_fn [("x", Graph.placeholder "x")] (some Graph.labelsIn) Mode.TRAIN [] =
          Except.error (TFError.keyError "learning_rate")) ∧
     abalone_estimator_args.hyperparameters.lookup "learning_rate" = some (1/1000)) :=
  ⟨Or.inl rfl, rfl,
    abalone_C9_learning_rate_required [("x", Graph.placeholder "x")]
      (some Graph.labelsIn) Mode.TRAIN [] (Or.inl rfl) rfl⟩

/-- C6: `model_fn` has no error handling of its own — it raises an error
exactly when one of the framework calls inside it raises one, and then it
propagates that error unchanged: a `KeyError` from `features["x"]`, the
`ValueError` from `tf.losses.mean_squared_error` on `None` labels, or a
`KeyError` from `params["learning_rate"]` (the latter two only off the
`PREDICT` early return). -/
theorem abalone_C6_error_propagation (features : List (String × Graph))
    (labels : Option Graph) (mode : Mode) (params : List (String × ℚ))
    (e : TFError) :
    model_fn features labels mode params = Except.error e ↔
      (dictGet features "x" = Except.error e ∨
        ((∃ x, dictGet features "x" = Except.ok x) ∧ mode ≠ Mode.PREDICT ∧
          ((labels = none ∧ e = TFError.valueError "labels must not be None") ∨
           (labels ≠ none ∧ dictGet params "learning_rate" = Except.error e)))) := by
  cases hx : features.lookup "x" with
  | none =>
    simp [model_fn, dictGet, hx, eq_comm]
  | some x =>
    by_cases hm : mode = Mode.PREDICT
    · subst hm
      simp [model_fn, dictGet, hx]
    · cases labels with
      | none =>
        simp [model_fn, dictGet, hx, hm, eq_comm]
      | some l =>
        cases hlr : params.lookup "learning_rate" with
        | none =>
          simp [model_fn, dictGet, hx, hm, hlr, eq_comm]
        | some lr =>
          simp [model_fn, dictGet, hx, hm, hlr]

/-- C3: the notebook invokes the deployed endpoint exactly once, with a
request encoding a single example: the first feature row of the prediction
dataset, packed with shape `[1, len(data)]` — batch size exactly 1. -/
theorem abalone_C3_single_invocation (rows : List (List ℚ)) (r : List ℚ)
    (rest : List (List ℚ)) (hrows : rows = r :: rest) :
    (notebookTrace rows).filter isPredictCall =
      [NotebookCall.predict (tensor_proto rows)] ∧
    (tensor_proto rows).values = r.dropLast ∧
    (tensor_proto rows).shape = [1, (tensor_proto rows).values.length] ∧
    (tensor_proto rows).shape.headD 0 = 1 := by
  subst hrows
  exact ⟨rfl, rfl, rfl, rfl⟩

/-- Witness for C3 on a two-row prediction dataset. -/
theorem abalone_C3_witness :
    ([[1, 2, 9], [3, 4, 7]] : List (List ℚ)) = [1, 2, 9] :: [[3, 4, 7]] ∧
    ((notebookTrace [[1, 2, 9], [3, 4, 7]]).filter isPredictCall =
       [NotebookCall.predict (tensor_proto [[1, 2, 9], [3, 4, 7]])] ∧
     (tensor_proto [[1, 2, 9], [3, 4, 7]]).values = ([1, 2, 9] : List ℚ).dropLast ∧
     (tensor_proto [[1, 2, 9], [3, 4, 7]]).shape =
       [1, (tensor_proto [[1, 2, 9], [3, 4, 7]]).values.length] ∧
     (tensor_proto [[1, 2, 9], [3, 4, 7]]).shape.headD 0 = 1) :=
  ⟨rfl, abalone_C3_single_invocation [[1, 2, 9], [3, 4, 7]] [1, 2, 9] [[3, 4, 7]] rfl⟩

/-- C5: the notebook's pipeline calls form a strictly linear sequence —
restricted to the five pipeline steps, the trace is exactly upload, fit,
deploy, predict, delete-endpoint, each occurring once and in that order. -/
theorem abalone_C5_linear_pipeline (rows : List (List ℚ)) :
    (notebookTrace rows).filter isPipelineCall =
      [NotebookCall.uploadData "data" "data/DEMO-abalone",
       NotebookCall.fit,
       NotebookCall.deploy 1 "ml.m4.xlarge",
       NotebookCall.predict (tensor_proto rows),
       NotebookCall.deleteEndpoint] := rfl

/-- C7: when every row of the prediction CSV has the seven measurement
columns plus the trailing integer ring-count target (eight columns), the
single request tensor has exactly seven float32 values — the feature
columns of the first row with the target excluded — and shape `[1, 7]`. -/
theorem abalone_C7_seven_features (rows : List (List ℚ)) (r : List ℚ)
    (rest : List (List ℚ)) (hrows : rows = r :: rest) (hr : r.length = 8) :
    (tensor_proto rows).values.length = 7 ∧
    (tensor_proto rows).shape = [1, 7] ∧
    (tensor_proto rows).dtype = DType.float32 ∧
    (tensor_proto rows).values = r.dropLast := by
  subst hrows
  have hlen : (tensor_proto (r :: rest)).values.length = 7 := by
    show r.dropLast.length = 7
    rw [List.length_dropLast, hr]
  refine ⟨hlen, ?_, rfl, rfl⟩
  show [1, r.dropLast.length] = [1, 7]
  rw [List.length_dropLast, hr]

/-- Witness for C7 on the modelled prediction CSV. -/
theorem abalone_C7_witness :
    abalone_predict_rows =
      [53/100, 42/100, 135/1000, 677/1000, 2565/10000, 1415/10000, 21/100, 9] ::
        [[585/1000, 46/100, 185/1000, 9955/10000, 3945/10000, 272/1000, 285/1000, 10]] ∧
    ([53/100, 42/100, 135/1000, 677/1000, 2565/10000, 1415/10000, 21/100, 9] :
      List ℚ).length = 8 ∧
    ((tensor_proto abalone_predict_rows).values.length = 7 ∧
     (tensor_proto abalone_predict_rows).shape = [1, 7] ∧
     (tensor_proto abalone_predict_rows).dtype = DType.float32 ∧
     (tensor_proto abalone_predict_rows).values =
       ([53/100, 42/100, 135/1000, 677/1000, 2565/10000, 1415/10000, 21/100, 9] :
         List ℚ).dropLast) :=
  ⟨rfl, rfl,
    abalone_C7_seven_features abalone_predict_rows
      [53/100, 42/100, 135/1000, 677/1000, 2565/10000, 1415/10000, 21/100, 9]
      [[585/1000, 46/100, 185/1000, 9955/10000, 3945/10000, 272/1000, 285/1000, 10]]
      rfl rfl⟩

/-- C10: in `PREDICT` mode the returned predictions dict has exactly one
key, `"ages"`, mapped to the output layer reshaped to a one-dimensional
tensor, and (whenever the input evaluates to a batch matrix and the output
layer's variables have one unit) that tensor's length equals the number of
examples in the batch. -/
theorem abalone_C10_predictions_shape (features : List (String × Graph))
    (labels : Option Graph) (params : List (String × ℚ)) (x : Graph) (env : Env)
    (m : List (List ℚ)) (s : EstimatorSpec)
    (hx : features.lookup "x" = some x)
    (hs : model_fn features labels Mode.PREDICT params = Except.ok s)
    (hxv : evalGraph env x = Except.ok (TValue.mat m))
    (hw : min (env.weights (denseCount x + 2)).cols.length
        (env.weights (denseCount x + 2)).bias.length = 1) :
    s.predictions = some [("ages", Graph.reshape (abaloneNetwork x) [-1])] ∧
    ∃ v, evalGraph env (Graph.reshape (abaloneNetwork x) [-1]) =
        Except.ok (TValue.vec v) ∧ v.length = m.length := by
  have hmf : model_fn features labels Mode.PREDICT params =
      Except.ok
        { mode := Mode.PREDICT,
          predictions := some [("ages", Graph.reshape (abaloneNetwork x) [-1])] } := by
    simp [model_fn, dictGet, hx, abaloneNetwork]
  rw [hmf] at hs
  injection hs with hs
  subst hs
  refine ⟨rfl, ?_⟩
  refine ⟨_, evalGraph_abaloneNetwork env x m hxv, ?_⟩
  rw [applyDense_flatten_length _ _ _ hw, applyDense_length, applyDense_length]

/-- Witness for C10 on a concrete two-example batch. -/
theorem abalone_C10_witness :
    [("x", Graph.placeholder "x")].lookup "x" = some (Graph.placeholder "x") ∧
    model_fn [("x", Graph.placeholder "x")] none Mode.PREDICT [] =
      Except.ok
        { mode := Mode.PREDICT,
          predictions :=
            some [("ages",
              Graph.reshape (abaloneNetwork (Graph.placeholder "x")) [-1])] } ∧
    evalGraph
      { features := fun _ => some [[1], [2]], labels := none,
        weights := fun _ => { cols := [[1]], bias := [0] } }
      (Graph.placeholder "x") = Except.ok (TValue.mat [[1], [2]]) ∧
    min (({ features := fun _ => some [[1], [2]], labels := none,
            weights := fun _ => { cols := [[1]], bias := [0] } : Env }).weights
          (denseCount (Graph.placeholder "x") + 2)).cols.length
        (({ features := fun _ => some [[1], [2]], labels := none,
            weights := fun _ => { cols := [[1]], bias := [0] } : Env }).weights
          (denseCount (Graph.placeholder "x") + 2)).bias.length = 1 ∧
    (({ mode := Mode.PREDICT,
        predictions :=
          some [("ages",
            Graph.reshape (abaloneNetwork (Graph.placeholder "x")) [-1])] } :
        EstimatorSpec).predictions =
      some [("ages", Graph.reshape (abaloneNetwork (Graph.placeholder "x")) [-1])] ∧
     ∃ v, evalGraph
        { features := fun _ => some [[1], [2]], labels := none,
          weights := fun _ => { cols := [[1]], bias := [0] } }
        (Graph.reshape (abaloneNetwork (Graph.placeholder "x")) [-1]) =
        Except.ok (TValue.vec v) ∧ v.length = ([[1], [2]] : List (List ℚ)).length) :=
  ⟨rfl, by simp [model_fn, dictGet, abaloneNetwork], rfl, rfl,
    abalone_C10_predictions_shape [("x", Graph.placeholder "x")] none []
      (Graph.placeholder "x")
      { features := fun _ => some [[1], [2]], labels := none,
        weights := fun _ => { cols := [[1]], bias := [0] } }
      [[1], [2]]
      { mode := Mode.PREDICT,
        predictions :=
          some [("ages",
            Graph.reshape (abaloneNetwork (Graph.placeholder "x")) [-1])] }
      rfl (by simp [model_fn, dictGet, abaloneNetwork]) rfl rfl⟩

/-- C4: the notebook's estimator construction passes exactly the script
path `abalone.py`, the role credential, framework version `1.9`, 100
training and 100 evaluation steps, the hyperparameter mapping
`{'learning_rate': 0.001}`, and instance count 1 / type `ml.c4.xlarge`;
and the deployed endpoint, given any tensor-encoded request, returns a
prediction response holding a single numeric value (for any trained output
layer with one unit). -/
theorem abalone_C4_estimator_args_endpoint (rows : List (List ℚ))
    (w : Nat → DenseWeights) (req : TensorProto)
    (hw : min (w 2).cols.length (w 2).bias.length = 1) :
    (notebookTrace rows).filter isEstimatorConstructCall =
      [NotebookCall.estimatorConstruct
        { entry_point := "abalone.py",
          role := (),
          framework_version := "1.9",
          training_steps := 100,
          evaluation_steps := 100,
          hyperparameters := [("learning_rate", 1/1000)],
          train_instance_count := 1,
          train_instance_type := "ml.c4.xlarge" }] ∧
    ∃ v : ℚ, endpointPredict w req = Except.ok [("ages", [v])] := by
  refine ⟨rfl, ?_⟩
  have henv : evalGraph
      { features := fun n => if n = "x" then some [req.values] else none,
        labels := none, weights := w } (Graph.placeholder "x") =
      Except.ok (TValue.mat [req.values]) := by
    simp [evalGraph]
  have h3 := evalGraph_abaloneNetwork _ _ _ henv
  simp only [denseCount, Nat.zero_add] at h3
  have hlen : ((applyDense (w 2) Activation.linear.apply
      (applyDense (w 1) Activation.relu.apply
        (applyDense (w 0) Activation.relu.apply [req.values]))).flatten).length = 1 := by
    rw [applyDense_flatten_length _ _ _ hw, applyDense_length, applyDense_length]
    rfl
  obtain ⟨v, hv⟩ := List.length_eq_one.mp hlen
  refine ⟨v, ?_⟩
  have hred : endpointPredict w req =
      evalPreds
        { features := fun n => if n = "x" then some [req.values] else none,
          labels := none, weights := w }
        [("ages", Graph.reshape (abaloneNetwork (Graph.placeholder "x")) [-1])] := rfl
  rw [hred]
  simp [evalPreds, h3, hv]

/-- Witness for C4 on a concrete request and trained weights. -/
theorem abalone_C4_witness :
    min ((fun _ : Nat => ({ cols := [[1]], bias := [0] } : DenseWeights)) 2).cols.length
        ((fun _ : Nat => ({ cols := [[1]], bias := [0] } : DenseWeights)) 2).bias.length
      = 1 ∧
    ((notebookTrace []).filter isEstimatorConstructCall =
       [NotebookCall.estimatorConstruct
         { entry_point := "abalone.py",
           role := (),
           framework_version := "1.9",
           training_steps := 100,
           evaluation_steps := 100,
           hyperparameters := [("learning_rate", 1/1000)],
           train_instance_count := 1,
           train_instance_type := "ml.c4.xlarge" }] ∧
     ∃ v : ℚ,
       endpointPredict (fun _ => { cols := [[1]], bias := [0] })
         { values := [1, 2, 3, 4, 5, 6, 7], shape := [1, 7], dtype := DType.float32 } =
         Except.ok [("ages", [v])]) :=
  ⟨rfl,
    abalone_C4_estimator_args_endpoint [] (fun _ => { cols := [[1]], bias := [0] })
      { values := [1, 2, 3, 4, 5, 6, 7], shape := [1, 7], dtype := DType.float32 } rfl⟩

end Abalone
